import Mathlib

/-!
Shallow embedding of the `deputy` Go package (natefinch/deputy, file
`deputy.go`): a process-execution supervisor wrapping `os/exec` with a
wall-clock timeout, optional promotion of captured stdout/stderr into the
returned error text, and optional line-oriented streaming callbacks.

Byte streams (`[]byte`, strings) are modelled as `List Char`; Go errors as
an inductive `GoErr` (a generic message-carrying error, plus the package's
`timeoutErr` struct); writers (`io.GoWriter`) as sets of named sinks so that
`io.MultiWriter` fan-out and the caller's pre-attached destinations are
observable; the scheduler nondeterminism (which of the timer and the wait
goroutine wins the `select`, the arrival order on the shared `errs`
channel, how far an abandoned drain goroutine got before `Run` returned)
is made explicit as parameters of a `Proc` record describing one concrete
execution of the child process.
-/

set_option autoImplicit false

/-- Bytes of a Go `[]byte` or `string`, modelled as a list of characters. -/
abbrev Bytes := List Char

/-- Go `unicode.IsSpace` (the White_Space property), used by
`bytes.TrimSpace`. -/
def goIsSpace (c : Char) : Bool :=
  let n := c.toNat
  (decide (9 ≤ n) && decide (n ≤ 13)) || decide (n = 32) || decide (n = 0x85) ||
  decide (n = 0xA0) || decide (n = 0x1680) ||
  (decide (0x2000 ≤ n) && decide (n ≤ 0x200A)) ||
  decide (n = 0x2028) || decide (n = 0x2029) || decide (n = 0x202F) ||
  decide (n = 0x205F) || decide (n = 0x3000)

/-- Go `bytes.TrimSpace`: drop leading and trailing white space. -/
def trimSpace (b : Bytes) : Bytes :=
  ((b.dropWhile goIsSpace).reverse.dropWhile goIsSpace).reverse

/-- Go `bufio.dropCR`: drop a single trailing carriage return, as done by
`bufio.ScanLines` on every token. -/
def dropCR (b : Bytes) : Bytes :=
  if b.getLast? = some '\r' then b.dropLast else b

/-- Split on newline characters, the separators removed; always returns at
least one (possibly empty) piece. -/
def splitNL : Bytes → List Bytes
  | [] => [[]]
  | c :: rest =>
    if c = '\n' then [] :: splitNL rest
    else (c :: (splitNL rest).headI) :: (splitNL rest).tail

/-- The token sequence produced by a `bufio.Scanner` over the whole stream
`b` with the default `bufio.ScanLines` split function: split at newlines,
drop the terminators, drop the trailing empty piece left by a final
newline (at EOF an empty remainder yields no token), and strip one
trailing carriage return from every token.  (The scanner's maximum token
size is modelled as unlimited; an over-long line would surface as a
terminal read error, which the model carries separately.) -/
def scanLines (b : Bytes) : List Bytes :=
  (if (splitNL b).getLast? = some [] then (splitNL b).dropLast else splitNL b).map dropCR

/-- Named write destinations a stream can fan out to: the caller's
pre-attached `cmd.Stdout` / `cmd.Stderr` writers, the internal `errsrc`
accumulation buffer, and the write ends of the pipes created by
`cmd.StdoutPipe()` / `cmd.StderrPipe()`. -/
inductive Sink where
  | callerOut
  | callerErr
  | errsrcSink
  | outPipeW
  | errPipeW
deriving DecidableEq

/-- An `io.GoWriter` is modelled by the list of sinks a write is delivered
to; `io.MultiWriter` concatenates. A Go `nil` writer is `Option.none`. -/
abbrev GoWriter := List Sink

/-- Go errors, as far as this package observes them: a generic error
carrying only its message (start failures, exit statuses, scanner read
errors, `fmt.Errorf` results), and the package's own `timeoutErr` struct
carrying the command path. -/
inductive GoErr where
  | mk (msg : Bytes)
  | timeout (path : Bytes)
deriving DecidableEq

/-- The `Error()` method: `timeoutErr` formats
`"timed out waiting for command %q to execute"` (Go `%q` quoting of paths
without special characters is plain double quotes). -/
def GoErr.Error : GoErr → Bytes
  | .mk m => m
  | .timeout p => ("timed out waiting for command \"".data) ++ p ++ ("\" to execute".data)

/-- Whether the dynamic type of the error satisfies the
`interface \x7b IsTimeout() bool \x7d` capability check: only `timeoutErr`
has the method, and its `IsTimeout` returns `true`. -/
def GoErr.hasIsTimeout : GoErr → Bool
  | .timeout _ => true
  | .mk _ => false

/-- Source `firstErr`: the first non-nil error of the list, else nil. -/
def firstErr : List (Option GoErr) → Option GoErr
  | [] => none
  | some e :: _ => some e
  | none :: rest => firstErr rest

/-- Source `dualWriter`: returns the other writer when one is nil, else an
`io.MultiWriter` over both. -/
def dualWriter : Option GoWriter → Option GoWriter → Option GoWriter
  | none, w2 => w2
  | some w1, none => some w1
  | some w1, some w2 => some (w1 ++ w2)

/-- Source `ErrorHandling` enumeration. -/
inductive ErrorHandling where
  | DefaultErrs
  | FromStderr
  | FromStdout
deriving DecidableEq

/-- Source `Deputy` struct.  `StdoutLog`/`StderrLog` are function-valued in
Go; the model keeps only whether a callback is configured — the callback's
observable effect is the sequence of lines delivered to it, reported in
`RunOutcome`.  The unexported `stdoutPipe`/`stderrPipe` fields record
whether a pipe read end is attached (zero value: absent). -/
structure Deputy where
  Timeout : Nat
  Errors : ErrorHandling
  StdoutLog : Bool
  StderrLog : Bool
  stdoutPipe : Bool := false
  stderrPipe : Bool := false
deriving DecidableEq

/-- The relevant fields of `exec.Cmd`: the command path and the output
destinations. -/
structure Cmd where
  Path : Bytes
  Stdout : Option GoWriter := none
  Stderr : Option GoWriter := none
deriving DecidableEq

/-- One concrete execution of the child process together with the
scheduler's choices, supplied as explicit nondeterminism. -/
structure Proc where
  /-- Result of `cmd.Start()`: `some e` means the process failed to start. -/
  startErr : Option GoErr := none
  /-- Bytes the child wrote to its stdout before exiting or being killed. -/
  outContent : Bytes := []
  /-- Bytes the child wrote to its stderr before exiting or being killed. -/
  errContent : Bytes := []
  /-- Result of `cmd.Wait()`. -/
  exitErr : Option GoErr := none
  /-- Terminal error reported by the stdout drain's scanner (`scanner.Err()`). -/
  outReadErr : Option GoErr := none
  /-- Terminal error reported by the stderr drain's scanner. -/
  errReadErr : Option GoErr := none
  /-- When both drains exist: whether the stderr drain sends on the shared
  `errs` channel before the stdout drain does. -/
  stderrDrainFirst : Bool := false
  /-- When `Timeout > 0`: whether the timer wins the `select` against the
  wait goroutine. -/
  timerFirst : Bool := false
  /-- Result of `cmd.Process.Kill()` when the timer fires. -/
  killErr : Option GoErr := none
  /-- Number of stdout lines the abandoned drain had delivered by the time
  `Run` returned, when the wait goroutine is not joined. -/
  abandonedOutLines : Nat := 0
  /-- Number of stderr lines the abandoned drain had delivered by the time
  `Run` returned, when the wait goroutine is not joined. -/
  abandonedErrLines : Nat := 0
deriving DecidableEq

/-- Source `Deputy.makePipes` (pointer receiver, called on Run's local
copy): in source order, first attach a stderr pipe when `StderrLog` is
configured, then a stdout pipe when `StdoutLog` is configured, returning
the first error.  `cmd.StderrPipe()` / `cmd.StdoutPipe()` fail when the
corresponding destination is already set, and otherwise store the pipe's
write end as the command's destination and the read end on the deputy. -/
def Deputy.makePipes (d : Deputy) (c : Cmd) : Except GoErr (Deputy × Cmd) :=
  match (if d.StderrLog then
           match c.Stderr with
           | some _ => Except.error (GoErr.mk ("exec: Stderr already set".data))
           | none => Except.ok ({d with stderrPipe := true},
                                {c with Stderr := some [Sink.errPipeW]})
         else Except.ok (d, c)) with
  | Except.error e => Except.error e
  | Except.ok (d1, c1) =>
    if d1.StdoutLog then
      match c1.Stdout with
      | some _ => Except.error (GoErr.mk ("exec: Stdout already set".data))
      | none => Except.ok ({d1 with stdoutPipe := true},
                           {c1 with Stdout := some [Sink.outPipeW]})
    else Except.ok (d1, c1)

/-- Bytes that reach sink `s` during the child's run: each stream's bytes
are delivered to every sink of its destination writer. -/
def Cmd.deliveredTo (c : Cmd) (outContent errContent : Bytes) (s : Sink) : Bytes :=
  (if (c.Stdout.getD []).contains s then outContent else []) ++
  (if (c.Stderr.getD []).contains s then errContent else [])

/-- The final report of one drain goroutine (source `pipe`): the lines it
handed to the callback one by one (scanner tokens), and the terminal
`scanner.Err()` value it sends on the `errs` channel on completion. -/
structure DrainReport where
  lines : List Bytes
  err : Option GoErr
deriving DecidableEq

/-- Source `pipe(log, r, errs)`: scan the readable stream into lines,
invoke the callback synchronously once per line, then send the scanner's
terminal error. -/
def pipe (content : Bytes) (readErr : Option GoErr) : DrainReport :=
  { lines := scanLines content, err := readErr }

/-- Events of the wait phase, in program order: a receive of one drain's
terminal report from the shared `errs` channel, and the `cmd.Wait()`
call. -/
inductive WaitEvent where
  | drainRecv (fromStderr : Bool)
  | callWait
deriving DecidableEq

/-- Result of the wait phase: the combined error and the event order. -/
structure WaitResult where
  err : Option GoErr
  events : List WaitEvent
deriving DecidableEq

/-- Arrival order of the drain goroutines' sends on the shared unbuffered
`errs` channel: each attached drain sends exactly once; when both are
attached the scheduler decides who sends first. -/
def Deputy.drainQueue (d : Deputy) (p : Proc) : List (Bool × Option GoErr) :=
  if d.stdoutPipe && d.stderrPipe then
    (if p.stderrDrainFirst then [(true, p.errReadErr), (false, p.outReadErr)]
     else [(false, p.outReadErr), (true, p.errReadErr)])
  else if d.stdoutPipe then [(false, p.outReadErr)]
  else if d.stderrPipe then [(true, p.errReadErr)]
  else []

/-- Source `Deputy.wait`: receive one value from `errs` per attached pipe
(stdout check first, stderr check second — but the values arrive in the
channel's order), then call `cmd.Wait()`, and combine with
`firstErr(err, err1, err2)`. -/
def Deputy.wait (d : Deputy) (p : Proc) : WaitResult :=
  let q := d.drainQueue p
  let err1 : Option GoErr := if d.stdoutPipe then (q[0]?.bind Prod.snd) else none
  let err2 : Option GoErr :=
    if d.stderrPipe then ((q[if d.stdoutPipe then 1 else 0]?).bind Prod.snd) else none
  { err := firstErr [p.exitErr, err1, err2]
    events := (q.map fun x => WaitEvent.drainRecv x.fst) ++ [WaitEvent.callWait] }

/-- Observables of source `Deputy.run` (start, drain launch, the
timeout race, wait). -/
structure RunPhase where
  /-- The error `run` returns. -/
  result : Option GoErr
  /-- Whether `cmd.Start()` succeeded. -/
  started : Bool
  /-- Whether the stdout drain goroutine was launched. -/
  outDrainLaunched : Bool
  /-- Whether the stderr drain goroutine was launched. -/
  errDrainLaunched : Bool
  /-- Whether the timeout `select` race was entered at all. -/
  raceEntered : Bool
  /-- Whether `cmd.Process.Kill()` was called. -/
  killCalled : Bool
  /-- Whether the wait phase's completion was observed before `run`
  returned (true on the `Timeout == 0` path and when the wait goroutine
  wins the race; false when the timer wins and the wait is abandoned). -/
  waitJoined : Bool
  /-- Wait-phase events observed before `run` returned (`[]` when the wait
  was abandoned). -/
  waitEvents : List WaitEvent
deriving DecidableEq

/-- Source `Deputy.run`: start (returning a start failure immediately,
with the drains launched only on success); with `Timeout == 0` call `wait`
synchronously; otherwise race the wait goroutine against
`time.After(Timeout)` — if the timer fires first, call
`cmd.Process.Kill()` discarding its error and return
`timeoutErr\x7bcmd.Path\x7d` without joining the wait goroutine. -/
def Deputy.runModel (d : Deputy) (c : Cmd) (p : Proc) : RunPhase :=
  match p.startErr with
  | some e => ⟨some e, false, false, false, false, false, false, []⟩
  | none =>
    if d.Timeout = 0 then
      let w := d.wait p
      ⟨w.err, true, d.stdoutPipe, d.stderrPipe, false, false, true, w.events⟩
    else if p.timerFirst then
      ⟨some (GoErr.timeout c.Path), true, d.stdoutPipe, d.stderrPipe, true, true, false, []⟩
    else
      let w := d.wait p
      ⟨w.err, true, d.stdoutPipe, d.stderrPipe, true, false, true, w.events⟩

/-- Everything a caller (or an observer of the side effects) can see of
one `Run` call. -/
structure RunOutcome where
  /-- The error `Run` returns. -/
  result : Option GoErr
  /-- The error the inner `d.run(cmd)` produced, before error synthesis. -/
  rawResult : Option GoErr
  started : Bool
  outDrainLaunched : Bool
  errDrainLaunched : Bool
  raceEntered : Bool
  killCalled : Bool
  waitJoined : Bool
  waitEvents : List WaitEvent
  /-- Bytes the caller's pre-attached stdout destination received. -/
  toCallerOut : Bytes
  /-- Bytes the caller's pre-attached stderr destination received. -/
  toCallerErr : Bytes
  /-- Final contents of the internal `errsrc` accumulation buffer. -/
  errsrcBuf : Bytes
  /-- Lines the stdout callback had received by the time `Run` returned. -/
  stdoutLinesBeforeReturn : List Bytes
  /-- Lines the stderr callback had received by the time `Run` returned. -/
  stderrLinesBeforeReturn : List Bytes
  /-- Lines the stdout callback eventually receives in total. -/
  stdoutLinesEventually : List Bytes
  /-- Lines the stderr callback eventually receives in total. -/
  stderrLinesEventually : List Bytes
  /-- The stdout drain's final report (`none` when no drain ran). -/
  stdoutDrainReport : Option DrainReport
  /-- The stderr drain's final report (`none` when no drain ran). -/
  stderrDrainReport : Option DrainReport
deriving DecidableEq

/-- The tee installation of `Run`'s lines 72–78: always allocate the
`errsrc` buffer; with `Errors == FromStderr` set
`cmd.Stderr = dualWriter(cmd.Stderr, errsrc)`, with `Errors == FromStdout`
likewise for stdout. -/
def wireErrsrc (errors : ErrorHandling) (c : Cmd) : Cmd :=
  { c with
    Stderr := if errors = ErrorHandling.FromStderr then
        dualWriter c.Stderr (some [Sink.errsrcSink]) else c.Stderr
    Stdout := if errors = ErrorHandling.FromStdout then
        dualWriter c.Stdout (some [Sink.errsrcSink]) else c.Stdout }

/-- The error synthesis of `Run`'s lines 82–89: with
`Errors == DefaultErrs` return the run error as is; otherwise, when it is
non-nil and the captured buffer is non-empty, return
`fmt.Errorf("%s: %s", err, bytes.TrimSpace(errsrc.Bytes()))`, else the run
error unchanged. -/
def synthErr (errors : ErrorHandling) (raw : Option GoErr) (errsrc : Bytes) : Option GoErr :=
  if errors = ErrorHandling.DefaultErrs then raw
  else
    match raw with
    | some e =>
      if errsrc ≠ [] then
        some (GoErr.mk (e.Error ++ (": ".data) ++ trimSpace errsrc))
      else some e
    | none => none

/-- Source `Deputy.Run` (value receiver): make the pipes on the local
copy, install the `errsrc` tee via `dualWriter` on the configured stream,
run, and apply the error synthesis. -/
def Deputy.Run (d : Deputy) (c : Cmd) (p : Proc) : RunOutcome :=
  match d.makePipes c with
  | Except.error e =>
    ⟨some e, some e, false, false, false, false, false, false, [],
     [], [], [], [], [], [], [], none, none⟩
  | Except.ok (d2, c2) =>
    let c3 : Cmd := wireErrsrc d2.Errors c2
    let ph := d2.runModel c3 p
    let delivered : Sink → Bytes := fun s =>
      if ph.started then c3.deliveredTo p.outContent p.errContent s else []
    let errsrc := delivered Sink.errsrcSink
    let res : Option GoErr := synthErr d2.Errors ph.result errsrc
    let outLinesAll := if ph.outDrainLaunched then scanLines (delivered Sink.outPipeW) else []
    let errLinesAll := if ph.errDrainLaunched then scanLines (delivered Sink.errPipeW) else []
    ⟨res, ph.result, ph.started, ph.outDrainLaunched, ph.errDrainLaunched,
     ph.raceEntered, ph.killCalled, ph.waitJoined, ph.waitEvents,
     delivered Sink.callerOut, delivered Sink.callerErr, errsrc,
     (if ph.waitJoined then outLinesAll else outLinesAll.take p.abandonedOutLines),
     (if ph.waitJoined then errLinesAll else errLinesAll.take p.abandonedErrLines),
     outLinesAll, errLinesAll,
     (if ph.outDrainLaunched then some (pipe (delivered Sink.outPipeW) p.outReadErr) else none),
     (if ph.errDrainLaunched then some (pipe (delivered Sink.errPipeW) p.errReadErr) else none)⟩

/-- Go value-receiver call semantics of `func (d Deputy) Run`: the method
operates on a copy of the caller's value, so the caller-visible deputy
after the call is the unchanged `d`, paired with the call's outcome. -/
def Deputy.runOnCaller (d : Deputy) (c : Cmd) (p : Proc) : Deputy × RunOutcome :=
  (d, d.Run c p)

example : scanLines ("a\nb".data) = ["a".data, "b".data] := by decide
example : scanLines ("a\n".data) = ["a".data] := by decide
example : scanLines ("a\r\n\n".data) = ["a".data, []] := by decide
example : scanLines [] = [] := by decide
example : trimSpace (" \n foo \n".data) = "foo".data := by decide
example : firstErr [none, some (GoErr.mk "x".data), some (GoErr.mk "y".data)] =
    some (GoErr.mk "x".data) := by decide


/-- Characterization of a successful `makePipes`: it succeeds exactly when
each configured callback finds its stream's destination unset, and then
attaches the pipes on the deputy copy and the pipe write ends on the
command. -/
theorem Deputy.makePipes_ok_iff {d : Deputy} {c : Cmd} {d2 : Deputy} {c2 : Cmd} :
    d.makePipes c = Except.ok (d2, c2) ↔
      ((d.StdoutLog = true → c.Stdout = none) ∧ (d.StderrLog = true → c.Stderr = none) ∧
       d2 = { d with stdoutPipe := d.StdoutLog || d.stdoutPipe,
                     stderrPipe := d.StderrLog || d.stderrPipe } ∧
       c2 = { c with Stdout := if d.StdoutLog then some [Sink.outPipeW] else c.Stdout,
                     Stderr := if d.StderrLog then some [Sink.errPipeW] else c.Stderr }) := by
  rcases d with ⟨T, E, SL, EL, SP, EP⟩
  rcases c with ⟨P, CO, CE⟩
  cases SL <;> cases EL <;> cases CO <;> cases CE <;>
    simp [Deputy.makePipes, Deputy.mk.injEq, Cmd.mk.injEq, and_assoc, eq_comm]

/-- The returned error of `Run` is always the error synthesis applied to
the inner run's error and the final captured buffer. -/
theorem Deputy.Run_result_synth (d : Deputy) (c : Cmd) (p : Proc) :
    (d.Run c p).result = synthErr d.Errors (d.Run c p).rawResult (d.Run c p).errsrcBuf := by
  cases h : d.makePipes c with
  | error e => simp [Deputy.Run, h, synthErr]
  | ok dc =>
    rcases dc with ⟨d2, c2⟩
    have hE : d2.Errors = d.Errors := by
      rcases Deputy.makePipes_ok_iff.mp h with ⟨-, -, hd2, -⟩
      rw [hd2]
    simp [Deputy.Run, h, hE]

/-- C1: with error-source capture configured (`Errors = FromStdout` or
`FromStderr`), a non-nil run error with a non-empty captured buffer is
returned as an error whose message is
`"<original error>: <captured output, leading and trailing whitespace
trimmed>"`; with an empty captured buffer, or with `Errors = DefaultErrs`,
the run error (or nil) is returned unchanged; and a nil run error is
returned as nil even when output was captured. -/
theorem c1_error_synthesis (d : Deputy) (c : Cmd) (p : Proc) :
    ((d.Errors = ErrorHandling.FromStdout ∨ d.Errors = ErrorHandling.FromStderr) →
      ∀ e, (d.Run c p).rawResult = some e → (d.Run c p).errsrcBuf ≠ [] →
        (d.Run c p).result =
          some (GoErr.mk (e.Error ++ (": ".data) ++ trimSpace ((d.Run c p).errsrcBuf)))) ∧
    ((d.Run c p).errsrcBuf = [] → (d.Run c p).result = (d.Run c p).rawResult) ∧
    (d.Errors = ErrorHandling.DefaultErrs → (d.Run c p).result = (d.Run c p).rawResult) ∧
    ((d.Run c p).rawResult = none → (d.Run c p).result = none) := by
  have hs := Deputy.Run_result_synth d c p
  refine ⟨?_, ?_, ?_, ?_⟩
  · intro hOR e hraw hbuf
    rw [hs, hraw]
    rcases hOR with hE | hE <;> simp [synthErr, hE, hbuf]
  · intro hbuf
    rw [hs, hbuf]
    cases hE : d.Errors <;> cases hr : (d.Run c p).rawResult <;> simp [synthErr]
  · intro hE
    rw [hs, hE]
    simp [synthErr]
  · intro hraw
    rw [hs, hraw]
    cases hE : d.Errors <;> simp [synthErr]

/-- Witness for C1: the `TestStdoutOutput` scenario — `FromStdout`, the
child writes `"foooo\n"` and exits 1 — yields the error message
`"exit status 1: foooo"`. -/
theorem c1_error_synthesis_witness :
    (Deputy.Run ⟨0, ErrorHandling.FromStdout, false, false, false, false⟩
      ⟨"p".data, some [Sink.callerOut], none⟩
      { outContent := "foooo\n".data, exitErr := some (GoErr.mk "exit status 1".data) }).result
    = some (GoErr.mk ("exit status 1: foooo".data)) := by
  have h := (c1_error_synthesis ⟨0, ErrorHandling.FromStdout, false, false, false, false⟩
      ⟨"p".data, some [Sink.callerOut], none⟩
      { outContent := "foooo\n".data, exitErr := some (GoErr.mk "exit status 1".data) }).1
      (Or.inl rfl) (GoErr.mk "exit status 1".data) (by decide) (by decide)
  exact h.trans (by decide)

/-- The result of `cmd.Process.Kill()` is discarded by the source
(`_ = cmd.Process.Kill()`): no observable of `Run` depends on it. -/
theorem Deputy.Run_killErr_irrel (d : Deputy) (c : Cmd) (p : Proc) (k : Option GoErr) :
    d.Run c { p with killErr := k } = d.Run c p := by
  rcases p with ⟨s, oc, ec, ee, ore, ere, sf, tf, ke, ao, ae⟩
  rfl

/-- C2 (amended): with a positive `Timeout`, when the timer wins the race
the child is killed with the kill error discarded, the wait goroutine is
not joined, and the inner run synthesizes `timeoutErr` carrying the
command path, whose `IsTimeout()` answers true; `Run` returns it unchanged
when `Errors = DefaultErrs` or the captured buffer is empty — but when
error-source capture is configured and the buffer is non-empty, the error
synthesis wraps the timeout error into a plain message-only error, losing
the `IsTimeout()` capability (see the counterexample). -/
theorem c2_timeout_race (d : Deputy) (c : Cmd) (p : Proc)
    (ho : d.StdoutLog = true → c.Stdout = none)
    (he : d.StderrLog = true → c.Stderr = none)
    (ht : ¬ d.Timeout = 0) (hfirst : p.timerFirst = true)
    (hstart : p.startErr = none) :
    (d.Run c p).killCalled = true ∧
    (d.Run c p).waitJoined = false ∧
    (d.Run c p).raceEntered = true ∧
    (d.Run c p).rawResult = some (GoErr.timeout c.Path) ∧
    (GoErr.timeout c.Path).hasIsTimeout = true ∧
    (∀ k, d.Run c { p with killErr := k } = d.Run c p) ∧
    ((d.Errors = ErrorHandling.DefaultErrs ∨ (d.Run c p).errsrcBuf = []) →
      (d.Run c p).result = some (GoErr.timeout c.Path)) := by
  have hmp : d.makePipes c = Except.ok
      ({ d with stdoutPipe := d.StdoutLog || d.stdoutPipe,
                stderrPipe := d.StderrLog || d.stderrPipe },
       { c with Stdout := if d.StdoutLog then some [Sink.outPipeW] else c.Stdout,
                Stderr := if d.StderrLog then some [Sink.errPipeW] else c.Stderr }) :=
    Deputy.makePipes_ok_iff.mpr ⟨ho, he, rfl, rfl⟩
  have hraw : (d.Run c p).rawResult = some (GoErr.timeout c.Path) := by
    simp [Deputy.Run, hmp, Deputy.runModel, hstart, hfirst, ht, wireErrsrc]
  refine ⟨?_, ?_, ?_, hraw, rfl, fun k => Deputy.Run_killErr_irrel d c p k, ?_⟩
  · simp [Deputy.Run, hmp, Deputy.runModel, hstart, hfirst, ht, wireErrsrc]
  · simp [Deputy.Run, hmp, Deputy.runModel, hstart, hfirst, ht, wireErrsrc]
  · simp [Deputy.Run, hmp, Deputy.runModel, hstart, hfirst, ht, wireErrsrc]
  · intro hor
    have hs := Deputy.Run_result_synth d c p
    rw [hs, hraw]
    rcases hor with hE | hbuf
    · simp [synthErr, hE]
    · rw [hbuf]
      cases hE : d.Errors <;> simp [synthErr]

/-- Counterexample to C2 as stated: `Errors = FromStdout`, the child wrote
`"boom"` before the timer fired — `Run` returns the wrapped error
`"timed out waiting for command \"p\" to execute: boom"`, a plain error
that does NOT satisfy the `IsTimeout()` capability check. -/
theorem c2_counterexample :
    ((Deputy.Run ⟨3, ErrorHandling.FromStdout, false, false, false, false⟩
        ⟨"p".data, none, none⟩
        { outContent := "boom".data, timerFirst := true }).result.map GoErr.hasIsTimeout)
      = some false := by decide

/-- Witness for C2: a `DefaultErrs` run whose timer fires returns exactly
`timeoutErr` with the command path, and the kill was attempted. -/
theorem c2_timeout_race_witness :
    (Deputy.Run ⟨3, ErrorHandling.DefaultErrs, false, false, false, false⟩
        ⟨"p".data, none, none⟩ { timerFirst := true }).result
      = some (GoErr.timeout ("p".data)) ∧
    (Deputy.Run ⟨3, ErrorHandling.DefaultErrs, false, false, false, false⟩
        ⟨"p".data, none, none⟩ { timerFirst := true }).killCalled = true := by
  have h := c2_timeout_race ⟨3, ErrorHandling.DefaultErrs, false, false, false, false⟩
      ⟨"p".data, none, none⟩ { timerFirst := true }
      (by decide) (by decide) (by decide) (by decide) (by decide)
  exact ⟨h.2.2.2.2.2.2 (Or.inl rfl), h.1⟩

/-- C3: the wait phase receives every attached drain's terminal report
from the `errs` channel before `cmd.Wait()` is called (one receive per
attached pipe, with `callWait` strictly last), and its combined result is
the first non-nil error among the process exit error and the drain
reports, the exit error taking precedence. -/
theorem c3_wait_drains_before_reap (d : Deputy) (p : Proc) :
    (d.wait p).events =
      ((d.drainQueue p).map fun x => WaitEvent.drainRecv x.fst) ++ [WaitEvent.callWait] ∧
    WaitEvent.callWait ∉ ((d.drainQueue p).map fun x => WaitEvent.drainRecv x.fst) ∧
    ((d.drainQueue p).map fun x => WaitEvent.drainRecv x.fst).length =
      (if d.stdoutPipe then 1 else 0) + (if d.stderrPipe then 1 else 0) ∧
    (d.wait p).err = firstErr (p.exitErr :: (d.drainQueue p).map Prod.snd) ∧
    (∀ e, p.exitErr = some e → (d.wait p).err = some e) := by
  refine ⟨rfl, ?_, ?_, ?_, ?_⟩
  · simp [List.mem_map]
  · rcases d with ⟨T, E, SL, EL, SP, EP⟩
    cases SP <;> cases EP <;> cases hsf : p.stderrDrainFirst <;>
      simp [Deputy.drainQueue, hsf]
  · rcases d with ⟨T, E, SL, EL, SP, EP⟩
    cases SP <;> cases EP <;> cases hsf : p.stderrDrainFirst <;>
      cases hex : p.exitErr <;>
      simp [Deputy.wait, Deputy.drainQueue, hsf, hex, firstErr] <;>
      cases hor : p.outReadErr <;> simp [hor, firstErr]
  · intro e he
    simp [Deputy.wait, he, firstErr]

/-- Witness for C3: both pipes attached, stderr's drain reporting first, a
non-nil exit error and a non-nil drain error — the exit error wins. -/
theorem c3_wait_drains_before_reap_witness :
    (Deputy.wait ⟨0, ErrorHandling.DefaultErrs, true, true, true, true⟩
      { exitErr := some (GoErr.mk "exit status 2".data),
        outReadErr := some (GoErr.mk "read error".data),
        stderrDrainFirst := true }).err = some (GoErr.mk "exit status 2".data) := by
  exact (c3_wait_drains_before_reap ⟨0, ErrorHandling.DefaultErrs, true, true, true, true⟩
      { exitErr := some (GoErr.mk "exit status 2".data),
        outReadErr := some (GoErr.mk "read error".data),
        stderrDrainFirst := true }).2.2.2.2 (GoErr.mk "exit status 2".data) rfl

/-- C4: with `Timeout = 0` the race is never entered and the child is
never killed (zero disables enforcement rather than firing immediately),
the result does not depend on the scheduler's timer choice, `Run` blocks
until the wait completes, and with `Errors = DefaultErrs` the wait result
passes through unmodified — in particular, with no callbacks configured it
is exactly the process exit error. -/
theorem c4_zero_timeout (d : Deputy) (c : Cmd) (p : Proc)
    (h0 : d.Timeout = 0)
    (ho : d.StdoutLog = true → c.Stdout = none)
    (he : d.StderrLog = true → c.Stderr = none)
    (hstart : p.startErr = none) :
    (d.Run c p).raceEntered = false ∧
    (d.Run c p).killCalled = false ∧
    (d.Run c p).waitJoined = true ∧
    (∀ b, d.Run c { p with timerFirst := b } = d.Run c p) ∧
    (d.Errors = ErrorHandling.DefaultErrs → (d.Run c p).result = (d.Run c p).rawResult) ∧
    (d.Errors = ErrorHandling.DefaultErrs → d.StdoutLog = false → d.StderrLog = false →
      d.stdoutPipe = false → d.stderrPipe = false → (d.Run c p).result = p.exitErr) := by
  have hmp : d.makePipes c = Except.ok
      ({ d with stdoutPipe := d.StdoutLog || d.stdoutPipe,
                stderrPipe := d.StderrLog || d.stderrPipe },
       { c with Stdout := if d.StdoutLog then some [Sink.outPipeW] else c.Stdout,
                Stderr := if d.StderrLog then some [Sink.errPipeW] else c.Stderr }) :=
    Deputy.makePipes_ok_iff.mpr ⟨ho, he, rfl, rfl⟩
  refine ⟨?_, ?_, ?_, ?_, ?_, ?_⟩
  · simp [Deputy.Run, hmp, Deputy.runModel, hstart, h0]
  · simp [Deputy.Run, hmp, Deputy.runModel, hstart, h0]
  · simp [Deputy.Run, hmp, Deputy.runModel, hstart, h0]
  · intro b
    simp [Deputy.Run, hmp, Deputy.runModel, hstart, h0, Deputy.wait,
      Deputy.drainQueue, Cmd.deliveredTo, wireErrsrc, synthErr, pipe]
  · intro hE
    rw [Deputy.Run_result_synth d c p, hE]
    simp [synthErr]
  · intro hE h1 h2 h3 h4
    cases hex : p.exitErr <;>
      simp [Deputy.Run, hmp, Deputy.runModel, hstart, h0, hE, h1, h2, h3, h4,
        Deputy.wait, Deputy.drainQueue, synthErr, hex, firstErr]

/-- Witness for C4: the `TestRunNoTimeout` shape — zero timeout, default
error handling, child exits with status 1 — returns exactly the exit
error, without any kill. -/
theorem c4_zero_timeout_witness :
    (Deputy.Run ⟨0, ErrorHandling.DefaultErrs, false, false, false, false⟩
        ⟨"p".data, none, none⟩ { exitErr := some (GoErr.mk "exit status 1".data) }).result
      = some (GoErr.mk "exit status 1".data) ∧
    (Deputy.Run ⟨0, ErrorHandling.DefaultErrs, false, false, false, false⟩
        ⟨"p".data, none, none⟩ { exitErr := some (GoErr.mk "exit status 1".data) }).killCalled
      = false := by
  have h := c4_zero_timeout ⟨0, ErrorHandling.DefaultErrs, false, false, false, false⟩
      ⟨"p".data, none, none⟩ { exitErr := some (GoErr.mk "exit status 1".data) }
      (by decide) (by decide) (by decide) (by decide)
  exact ⟨h.2.2.2.2.2 rfl rfl rfl rfl rfl, h.2.1⟩

/-- The newline split always produces at least one piece. -/
theorem splitNL_ne_nil (b : Bytes) : splitNL b ≠ [] := by
  induction b with
  | nil => simp [splitNL]
  | cons c rest ih =>
    by_cases hc : c = '\n' <;> simp [splitNL, hc]

/-- No piece of the newline split contains a newline. -/
theorem splitNL_no_newline (b : Bytes) : ∀ ln ∈ splitNL b, '\n' ∉ ln := by
  induction b with
  | nil =>
    intro ln h
    simp [splitNL] at h
    simp [h]
  | cons c rest ih =>
    intro ln h
    simp only [splitNL] at h
    cases hsp : splitNL rest with
    | nil => exact absurd hsp (splitNL_ne_nil rest)
    | cons p ps =>
      rw [hsp] at h
      by_cases hc : c = '\n'
      · rw [if_pos hc] at h
        rcases List.mem_cons.mp h with h1 | h1
        · simp [h1]
        · exact ih ln (by rw [hsp]; exact h1)
      · rw [if_neg hc] at h
        simp only [List.headI_cons, List.tail_cons] at h
        rcases List.mem_cons.mp h with h1 | h1
        · subst h1
          intro hmem
          rcases List.mem_cons.mp hmem with h2 | h2
          · exact hc h2.symm
          · exact ih p (by rw [hsp]; exact List.mem_cons_self p ps) h2
        · exact ih ln (by rw [hsp]; exact List.mem_cons_of_mem p h1)

/-- Dropping a trailing carriage return cannot introduce a newline. -/
theorem dropCR_no_newline {ln : Bytes} (h : '\n' ∉ ln) : '\n' ∉ dropCR ln := by
  unfold dropCR
  split
  · intro hmem
    exact h (List.dropLast_subset ln hmem)
  · exact h

/-- No scanner token contains a newline: the line terminators are
stripped. -/
theorem scanLines_no_newline (b : Bytes) : ∀ ln ∈ scanLines b, '\n' ∉ ln := by
  intro ln h
  unfold scanLines at h
  rcases List.mem_map.mp h with ⟨q, hq, rfl⟩
  have hq' : q ∈ splitNL b := by
    by_cases hc : (splitNL b).getLast? = some ([] : Bytes)
    · rw [if_pos hc] at hq
      exact List.dropLast_subset (splitNL b) hq
    · rw [if_neg hc] at hq
      exact hq
  exact dropCR_no_newline (splitNL_no_newline b q hq')

/-- Counterexample to C5 as stated: with `Timeout = 3` and the timer
winning the race, `Run` returns without joining the wait goroutine, and a
scheduling in which the abandoned drain had delivered nothing yet leaves
the callback short of the full line sequence at the moment `Run`
returns. -/
theorem c5_counterexample :
    (Deputy.Run ⟨3, ErrorHandling.DefaultErrs, true, false, false, false⟩
        ⟨"p".data, none, none⟩
        { outContent := "a\nb\n".data, timerFirst := true }).stdoutLinesBeforeReturn
      ≠ scanLines ("a\nb\n".data) := by decide

/-- C5 (amended): with a line callback configured, the callback receives
exactly the scanner's newline-split tokens of what the process wrote to
that stream (no token contains a newline), and the drain reports its
terminal read error (or nil) on completion; every line is delivered
before `Run` returns provided the wait phase completes before `Run`
returns (`Timeout = 0`, or the process wait wins the race) — when the
timer fires first the drain is abandoned and delivery may finish after
`Run` has returned (see the counterexample). -/
theorem c5_line_callbacks (d : Deputy) (c : Cmd) (p : Proc)
    (ho : d.StdoutLog = true → c.Stdout = none)
    (he : d.StderrLog = true → c.Stderr = none)
    (hco : c.Stdout = none ∨ c.Stdout = some [Sink.callerOut])
    (hce : c.Stderr = none ∨ c.Stderr = some [Sink.callerErr])
    (hstart : p.startErr = none)
    (hjoin : d.Timeout = 0 ∨ p.timerFirst = false) :
    (d.StdoutLog = true →
      (d.Run c p).stdoutLinesBeforeReturn = scanLines p.outContent ∧
      (d.Run c p).stdoutLinesEventually = scanLines p.outContent ∧
      (d.Run c p).stdoutDrainReport = some (pipe p.outContent p.outReadErr)) ∧
    (d.StderrLog = true →
      (d.Run c p).stderrLinesBeforeReturn = scanLines p.errContent ∧
      (d.Run c p).stderrLinesEventually = scanLines p.errContent ∧
      (d.Run c p).stderrDrainReport = some (pipe p.errContent p.errReadErr)) ∧
    (∀ b : Bytes, ∀ ln ∈ scanLines b, '\n' ∉ ln) := by
  have hmp : d.makePipes c = Except.ok
      ({ d with stdoutPipe := d.StdoutLog || d.stdoutPipe,
                stderrPipe := d.StderrLog || d.stderrPipe },
       { c with Stdout := if d.StdoutLog then some [Sink.outPipeW] else c.Stdout,
                Stderr := if d.StderrLog then some [Sink.errPipeW] else c.Stderr }) :=
    Deputy.makePipes_ok_iff.mpr ⟨ho, he, rfl, rfl⟩
  refine ⟨?_, ?_, fun b => scanLines_no_newline b⟩
  · intro hso
    have hco' : c.Stdout = none := ho hso
    rcases hjoin with hj | hj
    · cases hsel : d.StderrLog <;> cases hE : d.Errors <;>
        rcases hce with hce | hce <;>
        simp [Deputy.Run, hmp, Deputy.runModel, hstart, hso, hco', hce, hj, hE, hsel,
          wireErrsrc, dualWriter, Cmd.deliveredTo, pipe, synthErr]
    · by_cases h0 : d.Timeout = 0 <;>
        cases hsel : d.StderrLog <;> cases hE : d.Errors <;>
        rcases hce with hce | hce <;>
        simp [Deputy.Run, hmp, Deputy.runModel, hstart, hso, hco', hce, hj, hE, hsel,
          wireErrsrc, dualWriter, Cmd.deliveredTo, pipe, synthErr, h0]
  · intro hse
    have hce' : c.Stderr = none := he hse
    rcases hjoin with hj | hj
    · cases hsol : d.StdoutLog <;> cases hE : d.Errors <;>
        rcases hco with hco | hco <;>
        simp [Deputy.Run, hmp, Deputy.runModel, hstart, hse, hce', hco, hj, hE, hsol,
          wireErrsrc, dualWriter, Cmd.deliveredTo, pipe, synthErr]
    · by_cases h0 : d.Timeout = 0 <;>
        cases hsol : d.StdoutLog <;> cases hE : d.Errors <;>
        rcases hco with hco | hco <;>
        simp [Deputy.Run, hmp, Deputy.runModel, hstart, hse, hce', hco, hj, hE, hsol,
          wireErrsrc, dualWriter, Cmd.deliveredTo, pipe, synthErr, h0]

/-- Witness for C5 (amended): the `TestLogs` scenario — both callbacks
configured, the child writes `"foo!\n"` to stdout and `"bar!\n"` to
stderr — delivers exactly one line to each callback before `Run`
returns. -/
theorem c5_line_callbacks_witness :
    (Deputy.Run ⟨0, ErrorHandling.DefaultErrs, true, true, false, false⟩
        ⟨"p".data, none, none⟩
        { outContent := "foo!\n".data, errContent := "bar!\n".data }).stdoutLinesBeforeReturn
      = ["foo!".data] ∧
    (Deputy.Run ⟨0, ErrorHandling.DefaultErrs, true, true, false, false⟩
        ⟨"p".data, none, none⟩
        { outContent := "foo!\n".data, errContent := "bar!\n".data }).stderrLinesBeforeReturn
      = ["bar!".data] := by
  have h := c5_line_callbacks ⟨0, ErrorHandling.DefaultErrs, true, true, false, false⟩
      ⟨"p".data, none, none⟩
      { outContent := "foo!\n".data, errContent := "bar!\n".data }
      (by decide) (by decide) (Or.inl rfl) (Or.inl rfl) (by decide) (Or.inl rfl)
  exact ⟨(h.1 rfl).1.trans (by decide), (h.2.1 rfl).1.trans (by decide)⟩

/-- C6: with error-source capture on a stream whose destination the caller
pre-attached, the installed `dualWriter` tee keeps the caller's
destination: it receives the full untrimmed stream content (trailing
newline included), the capture buffer receives the same content, and on a
non-zero exit the returned error's text ends with the trimmed captured
output. -/
theorem c6_tee_preserves_caller (d : Deputy) (c : Cmd) (p : Proc)
    (hso : d.StdoutLog = false) (hse : d.StderrLog = false)
    (hstart : p.startErr = none)
    (hjoin : d.Timeout = 0 ∨ p.timerFirst = false) :
    (d.Errors = ErrorHandling.FromStdout → c.Stdout = some [Sink.callerOut] →
      (c.Stderr = none ∨ c.Stderr = some [Sink.callerErr]) →
      (d.Run c p).toCallerOut = p.outContent ∧
      (d.Run c p).errsrcBuf = p.outContent ∧
      (∀ e, p.exitErr = some e →
        ∃ m, (d.Run c p).result = some m ∧ trimSpace p.outContent <:+ m.Error)) ∧
    (d.Errors = ErrorHandling.FromStderr → c.Stderr = some [Sink.callerErr] →
      (c.Stdout = none ∨ c.Stdout = some [Sink.callerOut]) →
      (d.Run c p).toCallerErr = p.errContent ∧
      (d.Run c p).errsrcBuf = p.errContent ∧
      (∀ e, p.exitErr = some e →
        ∃ m, (d.Run c p).result = some m ∧ trimSpace p.errContent <:+ m.Error)) := by
  have ho : d.StdoutLog = true → c.Stdout = none := by simp [hso]
  have he : d.StderrLog = true → c.Stderr = none := by simp [hse]
  have hmp : d.makePipes c = Except.ok
      ({ d with stdoutPipe := d.StdoutLog || d.stdoutPipe,
                stderrPipe := d.StderrLog || d.stderrPipe },
       { c with Stdout := if d.StdoutLog then some [Sink.outPipeW] else c.Stdout,
                Stderr := if d.StderrLog then some [Sink.errPipeW] else c.Stderr }) :=
    Deputy.makePipes_ok_iff.mpr ⟨ho, he, rfl, rfl⟩
  have hraw : ∀ e, p.exitErr = some e → (d.Run c p).rawResult = some e := by
    intro e hex
    rcases hjoin with hj | hj
    · simp [Deputy.Run, hmp, Deputy.runModel, hstart, hj, Deputy.wait, hex, firstErr]
    · by_cases h0 : d.Timeout = 0 <;>
        simp [Deputy.Run, hmp, Deputy.runModel, hstart, hj, h0, Deputy.wait, hex, firstErr]
  constructor
  · intro hE hCO hce
    have hbuf : (d.Run c p).errsrcBuf = p.outContent := by
      rcases hjoin with hj | hj
      · rcases hce with hce | hce <;>
          simp [Deputy.Run, hmp, Deputy.runModel, hstart, hso, hse, hE, hCO, hce, hj,
            wireErrsrc, dualWriter, Cmd.deliveredTo]
      · by_cases h0 : d.Timeout = 0 <;> rcases hce with hce | hce <;>
          simp [Deputy.Run, hmp, Deputy.runModel, hstart, hso, hse, hE, hCO, hce, hj, h0,
            wireErrsrc, dualWriter, Cmd.deliveredTo]
    have hout' : (d.Run c p).toCallerOut = p.outContent := by
      rcases hjoin with hj | hj
      · rcases hce with hce | hce <;>
          simp [Deputy.Run, hmp, Deputy.runModel, hstart, hso, hse, hE, hCO, hce, hj,
            wireErrsrc, dualWriter, Cmd.deliveredTo]
      · by_cases h0 : d.Timeout = 0 <;> rcases hce with hce | hce <;>
          simp [Deputy.Run, hmp, Deputy.runModel, hstart, hso, hse, hE, hCO, hce, hj, h0,
            wireErrsrc, dualWriter, Cmd.deliveredTo]
    refine ⟨hout', hbuf, ?_⟩
    intro e hex
    rw [Deputy.Run_result_synth, hraw e hex, hbuf, hE]
    by_cases houtc : p.outContent = []
    · refine ⟨e, ?_, ?_⟩
      · rw [houtc]; simp [synthErr]
      · rw [houtc]
        exact List.nil_suffix
    · refine ⟨GoErr.mk (e.Error ++ (": ".data) ++ trimSpace p.outContent), ?_, ?_⟩
      · simp [synthErr, houtc]
      · simp only [GoErr.Error]
        exact List.suffix_append _ _
  · intro hE hCE hco
    have hbuf : (d.Run c p).errsrcBuf = p.errContent := by
      rcases hjoin with hj | hj
      · rcases hco with hco | hco <;>
          simp [Deputy.Run, hmp, Deputy.runModel, hstart, hso, hse, hE, hCE, hco, hj,
            wireErrsrc, dualWriter, Cmd.deliveredTo]
      · by_cases h0 : d.Timeout = 0 <;> rcases hco with hco | hco <;>
          simp [Deputy.Run, hmp, Deputy.runModel, hstart, hso, hse, hE, hCE, hco, hj, h0,
            wireErrsrc, dualWriter, Cmd.deliveredTo]
    have herr' : (d.Run c p).toCallerErr = p.errContent := by
      rcases hjoin with hj | hj
      · rcases hco with hco | hco <;>
          simp [Deputy.Run, hmp, Deputy.runModel, hstart, hso, hse, hE, hCE, hco, hj,
            wireErrsrc, dualWriter, Cmd.deliveredTo]
      · by_cases h0 : d.Timeout = 0 <;> rcases hco with hco | hco <;>
          simp [Deputy.Run, hmp, Deputy.runModel, hstart, hso, hse, hE, hCE, hco, hj, h0,
            wireErrsrc, dualWriter, Cmd.deliveredTo]
    refine ⟨herr', hbuf, ?_⟩
    intro e hex
    rw [Deputy.Run_result_synth, hraw e hex, hbuf, hE]
    by_cases herrc : p.errContent = []
    · refine ⟨e, ?_, ?_⟩
      · rw [herrc]; simp [synthErr]
      · rw [herrc]
        exact List.nil_suffix
    · refine ⟨GoErr.mk (e.Error ++ (": ".data) ++ trimSpace p.errContent), ?_, ?_⟩
      · simp [synthErr, herrc]
      · simp only [GoErr.Error]
        exact List.suffix_append _ _

/-- Witness for C6: the `TestStdoutOutput` scenario — caller pre-attached
a stdout buffer, `FromStdout`, child writes `"foooo\n"` and exits 1: the
caller's buffer gets the untrimmed bytes and the error text ends with the
trimmed output. -/
theorem c6_tee_preserves_caller_witness :
    (Deputy.Run ⟨0, ErrorHandling.FromStdout, false, false, false, false⟩
        ⟨"p".data, some [Sink.callerOut], none⟩
        { outContent := "foooo\n".data,
          exitErr := some (GoErr.mk "exit status 1".data) }).toCallerOut = "foooo\n".data ∧
    ∃ m, (Deputy.Run ⟨0, ErrorHandling.FromStdout, false, false, false, false⟩
        ⟨"p".data, some [Sink.callerOut], none⟩
        { outContent := "foooo\n".data,
          exitErr := some (GoErr.mk "exit status 1".data) }).result = some m ∧
      trimSpace ("foooo\n".data) <:+ m.Error := by
  have h := (c6_tee_preserves_caller ⟨0, ErrorHandling.FromStdout, false, false, false, false⟩
      ⟨"p".data, some [Sink.callerOut], none⟩
      { outContent := "foooo\n".data, exitErr := some (GoErr.mk "exit status 1".data) }
      (by decide) (by decide) (by decide) (Or.inl rfl)).1 rfl rfl (Or.inl rfl)
  exact ⟨h.1, h.2.2 (GoErr.mk "exit status 1".data) rfl⟩

/-- C9: when `cmd.Start()` fails, its error is returned immediately and
unmodified: no drain goroutine is launched, the timeout race is never
entered, nothing is killed, nothing is captured, and no text is appended
to the error even when error-source capture is configured. -/
theorem c9_start_failure (d : Deputy) (c : Cmd) (p : Proc) (e : GoErr)
    (ho : d.StdoutLog = true → c.Stdout = none)
    (he : d.StderrLog = true → c.Stderr = none)
    (hstart : p.startErr = some e) :
    (d.Run c p).result = some e ∧
    (d.Run c p).rawResult = some e ∧
    (d.Run c p).started = false ∧
    (d.Run c p).outDrainLaunched = false ∧
    (d.Run c p).errDrainLaunched = false ∧
    (d.Run c p).raceEntered = false ∧
    (d.Run c p).killCalled = false ∧
    (d.Run c p).errsrcBuf = [] ∧
    (d.Run c p).stdoutLinesEventually = [] ∧
    (d.Run c p).stderrLinesEventually = [] := by
  have hmp : d.makePipes c = Except.ok
      ({ d with stdoutPipe := d.StdoutLog || d.stdoutPipe,
                stderrPipe := d.StderrLog || d.stderrPipe },
       { c with Stdout := if d.StdoutLog then some [Sink.outPipeW] else c.Stdout,
                Stderr := if d.StderrLog then some [Sink.errPipeW] else c.Stderr }) :=
    Deputy.makePipes_ok_iff.mpr ⟨ho, he, rfl, rfl⟩
  cases hE : d.Errors <;>
    simp [Deputy.Run, hmp, Deputy.runModel, hstart, hE, synthErr, scanLines, splitNL]

/-- Witness for C9: an executable-not-found start failure with
`FromStdout` configured comes back verbatim, nothing launched. -/
theorem c9_start_failure_witness :
    (Deputy.Run ⟨0, ErrorHandling.FromStdout, false, false, false, false⟩
        ⟨"p".data, none, none⟩
        { startErr := some (GoErr.mk "exec: not found".data) }).result
      = some (GoErr.mk "exec: not found".data) ∧
    (Deputy.Run ⟨0, ErrorHandling.FromStdout, false, false, false, false⟩
        ⟨"p".data, none, none⟩
        { startErr := some (GoErr.mk "exec: not found".data) }).outDrainLaunched = false := by
  have h := c9_start_failure ⟨0, ErrorHandling.FromStdout, false, false, false, false⟩
      ⟨"p".data, none, none⟩ { startErr := some (GoErr.mk "exec: not found".data) }
      (GoErr.mk "exec: not found".data) (by decide) (by decide) rfl
  exact ⟨h.1, h.2.2.2.1⟩

/-- C10: `Run`'s value receiver keeps the caller's `Deputy` unchanged —
the pipe handles created during a call live only on the call-local copy
(`makePipes` does set them there), so the same configuration value can be
reused for further `Run` calls with identical behavior. -/
theorem c10_value_receiver (d : Deputy) (c : Cmd) (p : Proc) :
    (d.runOnCaller c p).fst = d ∧
    (((d.runOnCaller c p).fst.runOnCaller c p).snd = (d.runOnCaller c p).snd) ∧
    ((d.runOnCaller c p).fst.stdoutPipe = d.stdoutPipe ∧
     (d.runOnCaller c p).fst.stderrPipe = d.stderrPipe) ∧
    (d.StdoutLog = true → c.Stdout = none → (d.StderrLog = true → c.Stderr = none) →
      ∃ d2 c2, d.makePipes c = Except.ok (d2, c2) ∧ d2.stdoutPipe = true) := by
  refine ⟨rfl, rfl, ⟨rfl, rfl⟩, ?_⟩
  intro hso hco he
  refine ⟨_, _, Deputy.makePipes_ok_iff.mpr ⟨fun _ => hco, he, rfl, rfl⟩, ?_⟩
  simp [hso]

/-- Witness for C10: a deputy with a stdout callback — the call-local copy
gets `stdoutPipe = true`, while the caller-visible value still has it
unset. -/
theorem c10_value_receiver_witness :
    ((Deputy.runOnCaller ⟨0, ErrorHandling.DefaultErrs, true, false, false, false⟩
        ⟨"p".data, none, none⟩ { outContent := "hi\n".data }).fst
      = ⟨0, ErrorHandling.DefaultErrs, true, false, false, false⟩) ∧
    ∃ d2 c2, Deputy.makePipes ⟨0, ErrorHandling.DefaultErrs, true, false, false, false⟩
        ⟨"p".data, none, none⟩ = Except.ok (d2, c2) ∧ d2.stdoutPipe = true := by
  have h := c10_value_receiver ⟨0, ErrorHandling.DefaultErrs, true, false, false, false⟩
      ⟨"p".data, none, none⟩ { outContent := "hi\n".data }
  exact ⟨h.1, h.2.2.2 rfl rfl (by decide)⟩

/-- Modelled from the spec: the repository's README, example and
`TestRunCancel` use a `Cancel` channel field on `Deputy` whose `Run`
implementation is not among these sources (only its callers and tests
are).  Per the spec, the race is entered when the timeout is positive or a
cancellation signal is configured, and an observed cancellation behaves
exactly like timer expiry: best-effort kill and a synthesized timeout
result carrying the command path.  `hasCancel` models a non-nil `Cancel`
channel, `cancelFired` a close of that channel observed before the wait
completes. -/
def Deputy.runWithCancel (d : Deputy) (hasCancel cancelFired : Bool) (c : Cmd) (p : Proc) :
    RunPhase :=
  match p.startErr with
  | some e => ⟨some e, false, false, false, false, false, false, []⟩
  | none =>
    if d.Timeout = 0 ∧ hasCancel = false then
      let w := d.wait p
      ⟨w.err, true, d.stdoutPipe, d.stderrPipe, false, false, true, w.events⟩
    else if (¬ d.Timeout = 0 ∧ p.timerFirst = true) ∨ (hasCancel = true ∧ cancelFired = true) then
      ⟨some (GoErr.timeout c.Path), true, d.stdoutPipe, d.stderrPipe, true, true, false, []⟩
    else
      let w := d.wait p
      ⟨w.err, true, d.stdoutPipe, d.stderrPipe, true, false, true, w.events⟩

/-- C7: an observed cancellation mid-run kills the child and produces
exactly the timeout-classified result — `timeoutErr` carrying the command
path, answering true to `IsTimeout()` — identical to what a timer expiry
produces, and independent of the configured timeout duration. -/
theorem c7_cancel_like_timeout (d : Deputy) (c : Cmd) (p : Proc)
    (hstart : p.startErr = none) :
    d.runWithCancel true true c p =
      ⟨some (GoErr.timeout c.Path), true, d.stdoutPipe, d.stderrPipe, true, true, false, []⟩ ∧
    ((d.runWithCancel true true c p).result.map GoErr.hasIsTimeout) = some true ∧
    (∀ t : Nat, ¬ t = 0 →
      Deputy.runWithCancel { d with Timeout := t } true false c { p with timerFirst := true } =
        d.runWithCancel true true c p) ∧
    (∀ t : Nat, Deputy.runWithCancel { d with Timeout := t } true true c p =
      d.runWithCancel true true c p) := by
  have hmain : d.runWithCancel true true c p =
      ⟨some (GoErr.timeout c.Path), true, d.stdoutPipe, d.stderrPipe, true, true, false, []⟩ := by
    simp [Deputy.runWithCancel, hstart]
  refine ⟨hmain, by rw [hmain]; rfl, ?_, ?_⟩
  · intro t ht
    rw [hmain]
    simp [Deputy.runWithCancel, hstart, ht]
  · intro t
    rw [hmain]
    simp [Deputy.runWithCancel, hstart]

/-- Witness for C7: the `TestRunCancel` shape — no timeout configured,
cancel closed mid-run — yields the timeout-classified error with the
command path. -/
theorem c7_cancel_like_timeout_witness :
    (Deputy.runWithCancel ⟨0, ErrorHandling.DefaultErrs, false, false, false, false⟩
        true true ⟨"p".data, none, none⟩ {}).result = some (GoErr.timeout ("p".data)) := by
  have h := c7_cancel_like_timeout ⟨0, ErrorHandling.DefaultErrs, false, false, false, false⟩
      ⟨"p".data, none, none⟩ {} rfl
  rw [h.1]

/-- Modelled from the spec: the options-based historical variant's
`StdbothErr` mode (`New(StdbothErr())`, exercised by `TestStdbothErr`) has
no implementation among these sources.  Per the spec, both streams tee
into one shared accumulation buffer in system-call order; the buffer is
the join of the written chunks (`false` tags a stdout write, `true` a
stderr write). -/
def stdbothBuffer (events : List (Bool × Bytes)) : Bytes :=
  (events.map Prod.snd).flatten

/-- Modelled from the spec: the error synthesis of the combined mode — the
same rule as `synthErr` with capture configured, applied to the shared
buffer. -/
def stdbothResult (raw : Option GoErr) (events : List (Bool × Bytes)) : Option GoErr :=
  match raw with
  | none => none
  | some e =>
    if stdbothBuffer events ≠ [] then
      some (GoErr.mk (e.Error ++ (": ".data) ++ trimSpace (stdbothBuffer events)))
    else some e

/-- Any member list occurs contiguously inside the flattening. -/
theorem chunk_in_flatten {l : Bytes} {L : List Bytes} (h : l ∈ L) : l <:+: L.flatten := by
  induction L with
  | nil => cases h
  | cons a L ih =>
    rcases List.mem_cons.mp h with h1 | h1
    · subst h1
      exact ⟨[], L.flatten, by simp⟩
    · rcases ih h1 with ⟨s, t, hst⟩
      exact ⟨a ++ s, t, by rw [List.flatten_cons, ← hst]; simp [List.append_assoc]⟩

/-- C8: in the combined mode every written chunk of either stream lands in
the one shared buffer (each chunk is an infix of it, in write order), and
on a non-zero exit with each stream written contiguously and no
surrounding whitespace to trim, the full text of each stream occurs in the
returned error's message; a successful run stays nil. -/
theorem c8_stdboth_shared_buffer (events : List (Bool × Bytes)) (outC errC : Bytes) (e : GoErr) :
    (∀ ev ∈ events, ev.snd <:+: stdbothBuffer events) ∧
    (events = [(false, outC), (true, errC)] → ¬ (outC ++ errC) = [] →
      trimSpace (outC ++ errC) = outC ++ errC →
      ∃ m, stdbothResult (some e) events = some m ∧
        outC <:+: m.Error ∧ errC <:+: m.Error) ∧
    stdbothResult none events = none := by
  refine ⟨?_, ?_, rfl⟩
  · intro ev hev
    exact chunk_in_flatten (List.mem_map_of_mem Prod.snd hev)
  · intro hevents hne htrim
    subst hevents
    have hbuf : stdbothBuffer [(false, outC), (true, errC)] = outC ++ errC := by
      simp [stdbothBuffer]
    refine ⟨GoErr.mk (e.Error ++ (": ".data) ++ trimSpace (outC ++ errC)), ?_, ?_, ?_⟩
    · simp [stdbothResult, hbuf, hne]
    · refine ⟨e.Error ++ (": ".data), errC, ?_⟩
      show e.Error ++ (": ".data) ++ outC ++ errC =
        e.Error ++ (": ".data) ++ trimSpace (outC ++ errC)
      rw [htrim]
      simp [List.append_assoc]
    · refine ⟨e.Error ++ (": ".data) ++ outC, [], ?_⟩
      show (e.Error ++ (": ".data) ++ outC) ++ errC ++ [] =
        e.Error ++ (": ".data) ++ trimSpace (outC ++ errC)
      rw [htrim]
      simp [List.append_assoc]

/-- Witness for C8: the `TestStdbothErr` scenario — stdout writes
`"stdout"`, stderr writes `"stderr"`, exit 1 — both full texts occur in
the synthesized message. -/
theorem c8_stdboth_shared_buffer_witness :
    ∃ m, stdbothResult (some (GoErr.mk "exit status 1".data))
        [(false, "stdout".data), (true, "stderr".data)] = some m ∧
      ("stdout".data) <:+: m.Error ∧ ("stderr".data) <:+: m.Error := by
  exact (c8_stdboth_shared_buffer [(false, "stdout".data), (true, "stderr".data)]
      ("stdout".data) ("stderr".data) (GoErr.mk "exit status 1".data)).2.1
      rfl (by decide) (by decide)
